import Mathlib

/-!
Verification development for the go-groshi client library.

The Go source is shallowly embedded: JSON values are an inductive type,
`map[string]T` values that the client builds itself are association lists
(Go map iteration order never matters here because both `url.Values.Encode`
and `encoding/json` sort keys before serializing, and the response-side maps
are looked up key-wise with last-occurrence-wins semantics, matching how
`encoding/json` fills a `map[string]any`), `time.Time` is a broken-down
calendar time, and the HTTP transport is an explicit oracle from request
descriptors to responses.

The repository contains two revisions of the client.  The current revision
(typed decoding, `GroshiAPIError` carrying the HTTP status code) is embedded
in namespace `GoGroshi`; the historical revision (dynamic decoding,
`error_description` field, no status code on the error) is embedded in
namespace `GoGroshi.Rev0`.
-/

namespace GoGroshi

/-- JSON values, as decoded by `encoding/json` into `any`: objects keep their
textual field order so that duplicate-key and sequential-assignment semantics
of Go struct decoding can be modelled. Numeric literals are restricted to
integers, which covers every numeric field of the groshi API surface. -/
inductive J where
  | null : J
  | str (s : String) : J
  | num (n : Int) : J
  | bool (b : Bool) : J
  | arr (elems : List J) : J
  | obj (fields : List (String × J)) : J

/-- Broken-down calendar time standing for Go `time.Time`: the wall-clock
components that `Format`/`Parse` with an RFC-3339 layout read and write,
plus the nanosecond component and the zone offset in minutes. -/
structure GoTime where
  year : Nat
  month : Nat
  day : Nat
  hour : Nat
  minute : Nat
  second : Nat
  nsec : Nat
  offMin : Int
deriving DecidableEq, Repr

/-- Values an endpoint method stores into a `map[string]any` body map:
the client only ever inserts strings, `int`s and `time.Time` values. -/
inductive GoValue where
  | str (s : String) : GoValue
  | int (n : Int) : GoValue
  | time (t : GoTime) : GoValue
deriving DecidableEq, Repr

/-- The decimal digit character for `n < 10`, as produced by Go `fmt` padding. -/
def digitChar (n : Nat) : Char := Char.ofNat (48 + n)

/-- Two-digit zero-padded decimal, the `"01"`-style layout element. -/
def pad2 (n : Nat) : List Char := [digitChar (n / 10), digitChar (n % 10)]

/-- Four-digit zero-padded decimal, the `"2006"` layout element. -/
def pad4 (n : Nat) : List Char := pad2 (n / 100) ++ pad2 (n % 100)

/-- Three-digit zero-padded decimal, used for the nanosecond digits. -/
def pad3 (n : Nat) : List Char := digitChar (n / 100) :: pad2 (n % 100)

/-- Nine-digit zero-padded decimal for the nanosecond component. -/
def pad9 (n : Nat) : List Char :=
  pad3 (n / 1000000) ++ pad3 (n / 1000 % 1000) ++ pad3 (n % 1000)

/-- The `"Z07:00"` layout element: `Z` for a zero offset, otherwise the
signed `hh:mm` rendering of the zone offset. -/
def offsetChars (offMin : Int) : List Char :=
  if offMin = 0 then ['Z']
  else if 0 < offMin then
    '+' :: (pad2 (offMin.toNat / 60) ++ ':' :: pad2 (offMin.toNat % 60))
  else
    '-' :: (pad2 ((-offMin).toNat / 60) ++ ':' :: pad2 ((-offMin).toNat % 60))

/-- Character list of `t.Format(time.RFC3339)`, the layout
`"2006-01-02T15:04:05Z07:00"` (no sub-second digits). -/
def formatChars (t : GoTime) : List Char :=
  pad4 t.year ++ '-' :: (pad2 t.month ++ '-' :: (pad2 t.day ++ 'T' ::
    (pad2 t.hour ++ ':' :: (pad2 t.minute ++ ':' ::
      (pad2 t.second ++ offsetChars t.offMin)))))

/-- The shared `timeFormat = time.RFC3339` encoder used by the client. -/
def formatRFC3339 (t : GoTime) : String := ⟨formatChars t⟩

/-- Fractional-second digits of `time.Time.MarshalJSON` (the
`".999999999"` layout element): nothing when the nanosecond component is
zero, otherwise a dot followed by the nine nanosecond digits with trailing
zeros trimmed. -/
def fracChars (ns : Nat) : List Char :=
  if ns = 0 then []
  else '.' :: ((pad9 ns).reverse.dropWhile (fun c => c = '0')).reverse

/-- Character list of the RFC-3339 rendering with optional sub-second digits
that `time.Time.MarshalJSON` produces (layout `RFC3339Nano`). -/
def marshalJSONTimeChars (t : GoTime) : List Char :=
  pad4 t.year ++ '-' :: (pad2 t.month ++ '-' :: (pad2 t.day ++ 'T' ::
    (pad2 t.hour ++ ':' :: (pad2 t.minute ++ ':' ::
      (pad2 t.second ++ (fracChars t.nsec ++ offsetChars t.offMin))))))

/-- The text inside the quotes of `json.Marshal` applied to a `time.Time`. -/
def marshalJSONTime (t : GoTime) : String := ⟨marshalJSONTimeChars t⟩

/-- Reads one decimal digit, as the strict RFC-3339 parser does. -/
def readDigit (c : Char) : Option Nat :=
  if 48 ≤ c.toNat ∧ c.toNat ≤ 57 then some (c.toNat - 48) else none

/-- Reads exactly two decimal digits. -/
def read2 : List Char → Option (Nat × List Char)
  | c1 :: c2 :: rest =>
    (readDigit c1).bind fun d1 => (readDigit c2).map fun d2 => (d1 * 10 + d2, rest)
  | _ => none

/-- Reads exactly four decimal digits. -/
def read4 (l : List Char) : Option (Nat × List Char) :=
  (read2 l).bind fun p1 => (read2 p1.2).map fun p2 => (p1.1 * 100 + p2.1, p2.2)

/-- Requires the next character to be `c`. -/
def expect (c : Char) : List Char → Option (List Char)
  | x :: rest => if x = c then some rest else none
  | [] => none

/-- Greedily reads decimal digits. -/
def readDigits : List Char → (List Nat × List Char)
  | c :: rest =>
    match readDigit c with
    | some d => let (ds, l) := readDigits rest; (d :: ds, l)
    | none => ([], c :: rest)
  | [] => ([], [])

/-- Scales at most nine fractional-second digits to nanoseconds, as
`time.Parse` does with a fractional second. -/
def fracValue (ds : List Nat) : Option Nat :=
  if ds.length = 0 ∨ 9 < ds.length then none
  else some ((ds.foldl (fun acc d => acc * 10 + d) 0) * 10 ^ (9 - ds.length))

/-- Optional fractional second: `time.Parse` accepts a `.`- or `,`-separated
fraction immediately after the seconds even though the RFC-3339 layout has
no fractional element. -/
def readFracOpt : List Char → Option (Nat × List Char)
  | c :: rest =>
    if c = '.' ∨ c = ',' then
      let (ds, l) := readDigits rest
      (fracValue ds).map fun ns => (ns, l)
    else some (0, c :: rest)
  | [] => some (0, [])

/-- Zone offset: `Z` for UTC, otherwise a signed `hh:mm` with
`hh ≤ 23` and `mm ≤ 59`, as the strict RFC-3339 parser checks. -/
def readOffset : List Char → Option (Int × List Char)
  | c :: rest =>
    if c = 'Z' then some (0, rest)
    else if c = '+' ∨ c = '-' then
      (read2 rest).bind fun ph =>
      (expect ':' ph.2).bind fun l1 =>
      (read2 l1).bind fun pm =>
        if ph.1 ≤ 23 ∧ pm.1 ≤ 59 then
          some (if c = '+' then ((ph.1 * 60 + pm.1 : Nat) : Int)
                else -((ph.1 * 60 + pm.1 : Nat) : Int), pm.2)
        else none
    else none
  | [] => none

/-- Whether `year` is a leap year, as `time.isLeap`. -/
def isLeap (year : Nat) : Bool :=
  year % 4 = 0 && (year % 100 != 0 || year % 400 = 0)

/-- Number of days of `month` in `year`, as `time.daysIn`. -/
def daysIn (year month : Nat) : Nat :=
  if month = 2 then (if isLeap year then 29 else 28)
  else if month = 4 ∨ month = 6 ∨ month = 9 ∨ month = 11 then 30
  else 31

/-- The `2006-01-02` date part of the RFC-3339 layout. -/
def readDate (l : List Char) : Option ((Nat × Nat × Nat) × List Char) :=
  (read4 l).bind fun py =>
  (expect '-' py.2).bind fun l1 =>
  (read2 l1).bind fun pmo =>
  (expect '-' pmo.2).bind fun l2 =>
  (read2 l2).map fun pd => ((py.1, pmo.1, pd.1), pd.2)

/-- The `15:04:05` clock part of the RFC-3339 layout. -/
def readClock (l : List Char) : Option ((Nat × Nat × Nat) × List Char) :=
  (read2 l).bind fun ph =>
  (expect ':' ph.2).bind fun l1 =>
  (read2 l1).bind fun pmi =>
  (expect ':' pmi.2).bind fun l2 =>
  (read2 l2).map fun ps => ((ph.1, pmi.1, ps.1), ps.2)

/-- Fractional second and zone offset ending the RFC-3339 input. -/
def readTail (l : List Char) : Option (Nat × Int) :=
  (readFracOpt l).bind fun pns =>
  (readOffset pns.2).bind fun poff =>
  if poff.2 = [] then some (pns.1, poff.1) else none

/-- Character-level body of `time.Parse(time.RFC3339, s)`: four-digit year,
dashed date, `T`, colon-separated clock, optional fraction, offset, end of
input, with the component range checks of the strict RFC-3339 parser. -/
def parseChars (l : List Char) : Option GoTime :=
  (readDate l).bind fun pd =>
  (expect 'T' pd.2).bind fun l1 =>
  (readClock l1).bind fun pc =>
  (readTail pc.2).bind fun pt =>
  if 1 ≤ pd.1.2.1 ∧ pd.1.2.1 ≤ 12 ∧ 1 ≤ pd.1.2.2 ∧
      pd.1.2.2 ≤ daysIn pd.1.1 pd.1.2.1 ∧ pc.1.1 ≤ 23 ∧ pc.1.2.1 ≤ 59 ∧
      pc.1.2.2 ≤ 59 then
    some ⟨pd.1.1, pd.1.2.1, pd.1.2.2, pc.1.1, pc.1.2.1, pc.1.2.2, pt.1, pt.2⟩
  else none

/-- The shared `timeFormat = time.RFC3339` decoder, `time.Parse`. -/
def parseRFC3339 (s : String) : Option GoTime := parseChars s.data

/-- Well-formedness of a broken-down time: component ranges representable by
the RFC-3339 layout (Go additionally rejects years above 9999 when
formatting with a four-digit year). -/
def validTime (t : GoTime) : Prop :=
  t.year ≤ 9999 ∧ 1 ≤ t.month ∧ t.month ≤ 12 ∧ 1 ≤ t.day ∧
  t.day ≤ daysIn t.year t.month ∧ t.hour ≤ 23 ∧ t.minute ≤ 59 ∧
  t.second ≤ 59 ∧ t.nsec < 1000000000 ∧ -1439 ≤ t.offMin ∧ t.offMin ≤ 1439

instance (t : GoTime) : Decidable (validTime t) := by
  unfold validTime; infer_instance

/-- First-occurrence lookup in an association list built by an endpoint
method (those lists carry distinct keys). -/
def lookupKey {α : Type} (l : List (String × α)) (k : String) : Option α :=
  match l with
  | [] => none
  | kv :: rest => if kv.1 = k then some kv.2 else lookupKey rest k

/-- Last-occurrence lookup, the value a Go `map[string]any` filled by
`encoding/json` holds for `k` (later duplicate keys overwrite earlier ones). -/
def lookupLast (fields : List (String × J)) (k : String) : Option J :=
  fields.foldl (fun acc kv => if kv.1 = k then some kv.2 else acc) none

/-- Inserts a pair into a key-sorted association list. -/
def insertPair {α : Type} (p : String × α) :
    List (String × α) → List (String × α)
  | [] => [p]
  | q :: rest => if p.1 < q.1 then p :: q :: rest else q :: insertPair p rest

/-- Sorts an association list by key, as both `sort.Strings` inside
`url.Values.Encode` and the map encoder of `encoding/json` do. -/
def sortPairs {α : Type} : List (String × α) → List (String × α)
  | [] => []
  | p :: rest => insertPair p (sortPairs rest)

/-- Uppercase hexadecimal digit for `n < 16`. -/
def hexDigitChar (n : Nat) : Char :=
  if n < 10 then digitChar n else Char.ofNat (55 + n)

/-- UTF-8 bytes of a character, over which percent-encoding operates. -/
def utf8Bytes (c : Char) : List Nat :=
  let n := c.toNat
  if n < 128 then [n]
  else if n < 2048 then [192 + n / 64, 128 + n % 64]
  else if n < 65536 then [224 + n / 4096, 128 + n / 64 % 64, 128 + n % 64]
  else [240 + n / 262144, 128 + n / 4096 % 64, 128 + n / 64 % 64, 128 + n % 64]

/-- Bytes `url.QueryEscape` leaves unescaped: ASCII letters, digits and
`-`, `_`, `.`, `~`. -/
def isUnreservedQueryChar (c : Char) : Bool :=
  (65 ≤ c.toNat && c.toNat ≤ 90) || (97 ≤ c.toNat && c.toNat ≤ 122) ||
  (48 ≤ c.toNat && c.toNat ≤ 57) || c = '-' || c = '_' || c = '.' || c = '~'

/-- Escapes one character the way `url.QueryEscape` escapes its UTF-8 bytes:
unreserved bytes kept, space as `+`, everything else percent-encoded. -/
def queryEscapeChar (c : Char) : List Char :=
  if isUnreservedQueryChar c then [c]
  else if c = ' ' then ['+']
  else ((utf8Bytes c).map fun b => ['%', hexDigitChar (b / 16), hexDigitChar (b % 16)]).flatten

/-- Go `url.QueryEscape`. -/
def queryEscape (s : String) : String := ⟨(s.data.map queryEscapeChar).flatten⟩

/-- Go `url.Values.Encode`: keys sorted, each pair rendered as
`escape(k)=escape(v)`, pairs joined with `&`. -/
def encodeQuery (q : List (String × String)) : String :=
  String.intercalate "&"
    ((sortPairs q).map fun kv => queryEscape kv.1 ++ "=" ++ queryEscape kv.2)

/-- Lowercase hexadecimal digit for `n < 16`, as the `encoding/json`
encoder uses in `\u00xx` escapes. -/
def lowerHexDigitChar (n : Nat) : Char :=
  if n < 10 then digitChar n else Char.ofNat (87 + n)

/-- Escapes one character as the `encoding/json` string encoder does (with
its default HTML escaping of `<`, `>`, `&`). -/
def jsonEscapeChar (c : Char) : List Char :=
  if c = '"' then ['\\', '"']
  else if c = '\\' then ['\\', '\\']
  else if c = '\n' then ['\\', 'n']
  else if c = '\r' then ['\\', 'r']
  else if c = '\t' then ['\\', 't']
  else if c.toNat < 32 ∨ c = '<' ∨ c = '>' ∨ c = '&' then
    ['\\', 'u', '0', '0', lowerHexDigitChar (c.toNat / 16), lowerHexDigitChar (c.toNat % 16)]
  else if c.toNat = 8232 ∨ c.toNat = 8233 then
    ['\\', 'u', '2', '0', '2', lowerHexDigitChar (c.toNat % 16)]
  else [c]

/-- The `encoding/json` rendering of a string literal. -/
def jsonQuote (s : String) : String :=
  ⟨'"' :: (s.data.map jsonEscapeChar).flatten ++ ['"']⟩

/-- The `encoding/json` rendering of one body-map value.  A `time.Time`
value is serialized by its own `MarshalJSON`, i.e. in RFC-3339 format with
sub-second digits when the nanosecond component is non-zero. -/
def marshalValue : GoValue → String
  | .str s => jsonQuote s
  | .int n => toString n
  | .time t => "\"" ++ marshalJSONTime t ++ "\""

/-- The `encoding/json` rendering of a non-nil `map[string]any`: a JSON
object with the keys sorted. -/
def marshalObj (m : List (String × GoValue)) : String :=
  "\x7b" ++ String.intercalate ","
    ((sortPairs m).map fun kv => jsonQuote kv.1 ++ ":" ++ marshalValue kv.2) ++ "\x7d"

/-- Result of `json.Marshal(bodyParams)` in `sendRequest`: a nil map
(`none`) encodes as the JSON literal `null`, a non-nil map as a JSON
object. -/
def marshalBody : Option (List (String × GoValue)) → String
  | none => "null"
  | some m => marshalObj m

/-- The request descriptor assembled by `sendRequest` before the transport
call: method, full URL, serialized body and the two headers it sets. -/
structure HTTPRequest where
  method : String
  url : String
  body : String
  contentType : String
  authorization : Option String
deriving DecidableEq, Repr

/-- Transport outcome of `http.Client.Do` plus `io.ReadAll` plus JSON
scanning of the body: either a Go error (connection, timeout, read), or a
status code with the body, `none` standing for bytes that are not valid
JSON. -/
inductive TransportResult where
  | err (msg : String) : TransportResult
  | resp (status : Nat) (body : Option J) : TransportResult

/-- The HTTP transport as an oracle from built requests to raw results. -/
def Transport : Type := HTTPRequest → TransportResult

/-- The client struct: base URL and bearer token. -/
structure Client where
  baseURL : String
  token : String
deriving DecidableEq, Repr

/-- Removes trailing `/` characters, `strings.TrimRight(baseURL, "/")`. -/
def trimRightSlashes (s : String) : String :=
  ⟨(s.data.reverse.dropWhile (fun c => c = '/')).reverse⟩

/-- Go `NewGroshiAPIClient`: stores the base URL with trailing slashes
stripped, and the given token. -/
def NewGroshiAPIClient (baseURL token : String) : Client :=
  { baseURL := trimRightSlashes baseURL, token := token }

/-- Go `SetToken`: replaces the stored token. -/
def SetToken (c : Client) (token : String) : Client := { c with token := token }

/-- Whether a string contains an ASCII control character, the reason
`url.Parse` rejects a URL built from the client's base URL and a path.
The base URLs produced by `NewGroshiAPIClient` from a plain origin carry no
query or fragment component, so no other `url.Parse` behavior is involved
in this client. -/
def hasCtlChar (s : String) : Bool :=
  s.data.any fun c => c.toNat < 32 || c.toNat = 127

/-- Request construction of `sendRequest`: URL from base, path and encoded
query parameters, JSON body from the body map, the `Content-Type` header,
and the `Authorization: Bearer <token>` header exactly when `authorize` is
set. `none` is the `url.Parse` failure path. -/
def buildRequest (c : Client) (method path : String)
    (queryParams : List (String × String))
    (bodyParams : Option (List (String × GoValue))) (authorize : Bool) :
    Option HTTPRequest :=
  if hasCtlChar (c.baseURL ++ path) then none
  else
    let encoded := encodeQuery queryParams
    some { method := method
           url := c.baseURL ++ path ++ (if encoded = "" then "" else "?" ++ encoded)
           body := marshalBody bodyParams
           contentType := "application/json"
           authorization := if authorize then some ("Bearer " ++ c.token) else none }

/-- Outcome of a `sendRequest` call in the current revision, one
constructor per error class of the source: the fatal panic on a missing
token, a propagated Go error (URL construction, transport, body read), a
JSON decoding failure, a decoded `GroshiAPIError`, or the decoded success
value. -/
inductive SendResult (α : Type) where
  | panicked (msg : String) : SendResult α
  | transportErr (msg : String) : SendResult α
  | decodeErr : SendResult α
  | apiErr (httpStatusCode : Nat) (errorMessage : String)
      (errorDetails : List String) : SendResult α
  | ok (value : α) : SendResult α
deriving DecidableEq, Repr

/-- The error model of the current revision, struct `Error` with JSON tags
`error_message` and `error_details`. -/
structure ErrorModel where
  errorMessage : String
  errorDetails : List String
deriving DecidableEq, Repr

/-- ASCII lower-casing of a string, character by character. -/
def asciiLower (s : String) : String := ⟨s.data.map Char.toLower⟩

/-- Go `EqualFold`-style key matching of `encoding/json` struct decoding
(ASCII case folding; exact match first is subsumed because the tags here
are lower-case). -/
def fieldMatch (key tag : String) : Bool :=
  key = tag || asciiLower key = tag

/-- Decodes one JSON value into a string struct field, with the
`encoding/json` rules: `null` leaves the current value, a string replaces
it, anything else is a type error. -/
def decodeStrField (j : J) (cur : String) : Option String :=
  match j with
  | .null => some cur
  | .str s => some s
  | _ => none

/-- Decodes a JSON array element list into `[]string`. -/
def decodeStrElems : List J → Option (List String)
  | [] => some []
  | .str s :: rest => (decodeStrElems rest).map fun l => s :: l
  | .null :: rest => (decodeStrElems rest).map fun l => "" :: l
  | _ => none

/-- Decodes one JSON value into a `[]string` field: `null` sets the nil
slice, an array decodes element-wise, anything else is a type error. -/
def decodeStrListField (j : J) (_cur : List String) : Option (List String) :=
  match j with
  | .null => some []
  | .arr xs => decodeStrElems xs
  | _ => none

/-- Go `json.Unmarshal` of a response body into the `Error` struct: a JSON
object is folded field by field (later duplicates win, keys matched with
ASCII case folding), top-level `null` leaves the zero value, any other
shape or any field type mismatch is a decode error. -/
def decodeErrorModel (j : J) : Option ErrorModel :=
  match j with
  | .null => some ⟨"", []⟩
  | .obj fields =>
    fields.foldlM (fun (e : ErrorModel) kv =>
      if fieldMatch kv.1 "error_message" then
        (decodeStrField kv.2 e.errorMessage).map fun s => { e with errorMessage := s }
      else if fieldMatch kv.1 "error_details" then
        (decodeStrListField kv.2 e.errorDetails).map fun l => { e with errorDetails := l }
      else some e) ⟨"", []⟩
  | _ => none

/-- Response interpretation of `sendRequest`: status 200 decodes the body
into the endpoint's target shape, any other status decodes the body as the
`Error` struct and wraps it into a `GroshiAPIError` carrying the original
status code; a body that fails to decode is a decode error in both cases. -/
def interpretResponse {α : Type} (r : TransportResult) (dec : J → Option α) :
    SendResult α :=
  match r with
  | .err m => .transportErr m
  | .resp status body =>
    match body with
    | none => .decodeErr
    | some j =>
      if status = 200 then
        match dec j with
        | none => .decodeErr
        | some v => .ok v
      else
        match decodeErrorModel j with
        | none => .decodeErr
        | some em => .apiErr status em.errorMessage em.errorDetails

/-- The panic message of the current revision's `sendRequest`. -/
def panicMessage : String :=
  "`authorize` is set to true, but GroshiAPIClient's field `token` is an empty string"

/-- The error message of a `url.Parse` failure. -/
def urlErrorMessage : String := "net/url: invalid control character in URL"

/-- The dispatcher `sendRequest` of the current revision: fatal panic when
`authorize` is set but the token is empty, then request construction,
transport, and response interpretation. -/
def sendRequest {α : Type} (c : Client) (method path : String)
    (queryParams : List (String × String))
    (bodyParams : Option (List (String × GoValue))) (authorize : Bool)
    (dec : J → Option α) (transport : Transport) : SendResult α :=
  if authorize ∧ c.token = "" then .panicked panicMessage
  else
    match buildRequest c method path queryParams bodyParams authorize with
    | none => .transportErr urlErrorMessage
    | some req => interpretResponse (transport req) dec

/-- The zero `time.Time`, January 1 of year 1, UTC. -/
def zeroTime : GoTime := ⟨1, 1, 1, 0, 0, 0, 0, 0⟩

/-- Decodes one JSON value into a `time.Time` field: `null` leaves the
current value, a string must parse in RFC-3339 format, anything else is a
type error (`time.Time.UnmarshalJSON`). -/
def decodeTimeField (j : J) (cur : GoTime) : Option GoTime :=
  match j with
  | .null => some cur
  | .str s => parseRFC3339 s
  | _ => none

/-- Decodes one JSON value into an `int` field. -/
def decodeIntField (j : J) (cur : Int) : Option Int :=
  match j with
  | .null => some cur
  | .num n => some n
  | _ => none

/-- The `Authorization` response struct: JWT and its expiry. -/
structure Authorization where
  token : String
  expiresAt : GoTime
deriving DecidableEq, Repr

/-- Go `json.Unmarshal` into the `Authorization` struct (tags `token` and
`expires_at`). -/
def decodeAuthorization (j : J) : Option Authorization :=
  match j with
  | .null => some ⟨"", zeroTime⟩
  | .obj fields =>
    fields.foldlM (fun (a : Authorization) kv =>
      if fieldMatch kv.1 "token" then
        (decodeStrField kv.2 a.token).map fun s => { a with token := s }
      else if fieldMatch kv.1 "expires_at" then
        (decodeTimeField kv.2 a.expiresAt).map fun t => { a with expiresAt := t }
      else some a) ⟨"", zeroTime⟩
  | _ => none

/-- The `User` response struct. -/
structure User where
  username : String
deriving DecidableEq, Repr

/-- Go `json.Unmarshal` into the `User` struct (tag `username`). -/
def decodeUser (j : J) : Option User :=
  match j with
  | .null => some ⟨""⟩
  | .obj fields =>
    fields.foldlM (fun (u : User) kv =>
      if fieldMatch kv.1 "username" then
        (decodeStrField kv.2 u.username).map fun s => ⟨s⟩
      else some u) ⟨""⟩
  | _ => none

/-- The `Transaction` response struct of the current revision. -/
structure Transaction where
  uuid : String
  amount : Int
  currency : String
  description : String
  timestamp : GoTime
  createdAt : GoTime
  updatedAt : GoTime
deriving DecidableEq, Repr

/-- The zero `Transaction` value. -/
def zeroTransaction : Transaction := ⟨"", 0, "", "", zeroTime, zeroTime, zeroTime⟩

/-- Go `json.Unmarshal` into the `Transaction` struct (tags `uuid`,
`amount`, `currency`, `description`, `timestamp`, `created_at`,
`updated_at`). -/
def decodeTransaction (j : J) : Option Transaction :=
  match j with
  | .null => some zeroTransaction
  | .obj fields =>
    fields.foldlM (fun (t : Transaction) kv =>
      if fieldMatch kv.1 "uuid" then
        (decodeStrField kv.2 t.uuid).map fun s => { t with uuid := s }
      else if fieldMatch kv.1 "amount" then
        (decodeIntField kv.2 t.amount).map fun n => { t with amount := n }
      else if fieldMatch kv.1 "currency" then
        (decodeStrField kv.2 t.currency).map fun s => { t with currency := s }
      else if fieldMatch kv.1 "description" then
        (decodeStrField kv.2 t.description).map fun s => { t with description := s }
      else if fieldMatch kv.1 "timestamp" then
        (decodeTimeField kv.2 t.timestamp).map fun x => { t with timestamp := x }
      else if fieldMatch kv.1 "created_at" then
        (decodeTimeField kv.2 t.createdAt).map fun x => { t with createdAt := x }
      else if fieldMatch kv.1 "updated_at" then
        (decodeTimeField kv.2 t.updatedAt).map fun x => { t with updatedAt := x }
      else some t) zeroTransaction
  | _ => none

/-- Go `json.Unmarshal` into `[]*Transaction`. -/
def decodeTransactionList (j : J) : Option (List Transaction) :=
  match j with
  | .null => some []
  | .arr xs => xs.mapM decodeTransaction
  | _ => none

/-- The `TransactionsSummary` response struct. -/
structure TransactionsSummary where
  currency : String
  income : Int
  outcome : Int
  total : Int
  transactionsCount : Int
deriving DecidableEq, Repr

/-- Go `json.Unmarshal` into the `TransactionsSummary` struct (tags
`currency`, `income`, `outcome`, `total`, `transactions_count`). -/
def decodeSummary (j : J) : Option TransactionsSummary :=
  match j with
  | .null => some ⟨"", 0, 0, 0, 0⟩
  | .obj fields =>
    fields.foldlM (fun (s : TransactionsSummary) kv =>
      if fieldMatch kv.1 "currency" then
        (decodeStrField kv.2 s.currency).map fun x => { s with currency := x }
      else if fieldMatch kv.1 "income" then
        (decodeIntField kv.2 s.income).map fun n => { s with income := n }
      else if fieldMatch kv.1 "outcome" then
        (decodeIntField kv.2 s.outcome).map fun n => { s with outcome := n }
      else if fieldMatch kv.1 "total" then
        (decodeIntField kv.2 s.total).map fun n => { s with total := n }
      else if fieldMatch kv.1 "transactions_count" then
        (decodeIntField kv.2 s.transactionsCount).map fun n =>
          { s with transactionsCount := n }
      else some s) ⟨"", 0, 0, 0, 0⟩
  | _ => none

/-- Modelled from the spec: the `Currency` struct referenced by
`CurrenciesRead` is not under `src/`; section 3 of the spec describes it as
an "opaque listing entry (code + metadata)", so it is modelled as an opaque
JSON payload. -/
structure Currency where
  raw : J

/-- Decodes a `[]Currency` response, each entry kept opaque. -/
def decodeCurrencyList (j : J) : Option (List Currency) :=
  match j with
  | .null => some []
  | .arr xs => some (xs.map Currency.mk)
  | _ => none

/-- Body map of `AuthLogin` and `UserCreate`. -/
def credentialsBody (username password : String) : List (String × GoValue) :=
  [("username", .str username), ("password", .str password)]

/-- Go `AuthLogin`: POST `/auth/login`, unauthenticated, credentials body.
The pair returns the (unchanged) client together with the call result. -/
def AuthLogin (c : Client) (username password : String) (tr : Transport) :
    Client × SendResult Authorization :=
  (c, sendRequest c "POST" "/auth/login" [] (some (credentialsBody username password))
    false decodeAuthorization tr)

/-- Go `Auth`: `AuthLogin` followed, on success, by `SetToken` with the
returned token. -/
def Auth (c : Client) (username password : String) (tr : Transport) :
    Client × SendResult Unit :=
  match (AuthLogin c username password tr).2 with
  | .ok auth => (SetToken c auth.token, .ok ())
  | .panicked m => (c, .panicked m)
  | .transportErr m => (c, .transportErr m)
  | .decodeErr => (c, .decodeErr)
  | .apiErr s m d => (c, .apiErr s m d)

/-- Go `AuthRefresh`: POST `/auth/refresh`, authorized, nil body. -/
def AuthRefresh (c : Client) (tr : Transport) : Client × SendResult Authorization :=
  (c, sendRequest c "POST" "/auth/refresh" [] none true decodeAuthorization tr)

/-- Go `UserCreate`: POST `/user`, unauthenticated, credentials body. -/
def UserCreate (c : Client) (username password : String) (tr : Transport) :
    Client × SendResult User :=
  (c, sendRequest c "POST" "/user" [] (some (credentialsBody username password))
    false decodeUser tr)

/-- Go `UserRead`: GET `/user`, authorized, nil body. -/
def UserRead (c : Client) (tr : Transport) : Client × SendResult User :=
  (c, sendRequest c "GET" "/user" [] none true decodeUser tr)

/-- Body map of `UserUpdate`: `new_username` and `new_password` inserted
only when the corresponding pointer argument is non-nil. -/
def userUpdateBody (newUsername newPassword : Option String) :
    List (String × GoValue) :=
  (match newUsername with
   | some u => [("new_username", GoValue.str u)]
   | none => []) ++
  (match newPassword with
   | some p => [("new_password", GoValue.str p)]
   | none => [])

/-- Go `UserUpdate`: PUT `/user`, authorized, optional-field body map. -/
def UserUpdate (c : Client) (newUsername newPassword : Option String)
    (tr : Transport) : Client × SendResult User :=
  (c, sendRequest c "PUT" "/user" [] (some (userUpdateBody newUsername newPassword))
    true decodeUser tr)

/-- Go `UserDelete`: DELETE `/user`, authorized, nil body. -/
def UserDelete (c : Client) (tr : Transport) : Client × SendResult User :=
  (c, sendRequest c "DELETE" "/user" [] none true decodeUser tr)

/-- Body map of `TransactionsCreate`: mandatory `amount` and `currency`,
optional `description`; an optional `timestamp` is stored as the raw
`time.Time` value (serialized later by the JSON encoder itself, not through
the shared `timeFormat`). -/
def transactionsCreateBody (amount : Int) (currency : String)
    (description : Option String) (timestamp : Option GoTime) :
    List (String × GoValue) :=
  [("amount", GoValue.int amount), ("currency", GoValue.str currency)] ++
  (match description with
   | some d => [("description", GoValue.str d)]
   | none => []) ++
  (match timestamp with
   | some t => [("timestamp", GoValue.time t)]
   | none => [])

/-- Go `TransactionsCreate`: POST `/transactions`, authorized. -/
def TransactionsCreate (c : Client) (amount : Int) (currency : String)
    (description : Option String) (timestamp : Option GoTime) (tr : Transport) :
    Client × SendResult Transaction :=
  (c, sendRequest c "POST" "/transactions" []
    (some (transactionsCreateBody amount currency description timestamp))
    true decodeTransaction tr)

/-- Query map of `TransactionsReadOne`: nil unless a currency is given. -/
def readOneQuery (currency : Option String) : List (String × String) :=
  match currency with
  | some s => [("currency", s)]
  | none => []

/-- Go `TransactionsReadOne`: GET `/transactions/<uuid>`, authorized. -/
def TransactionsReadOne (c : Client) (uuid : String) (currency : Option String)
    (tr : Transport) : Client × SendResult Transaction :=
  (c, sendRequest c "GET" ("/transactions/" ++ uuid) (readOneQuery currency)
    none true decodeTransaction tr)

/-- Query map of `TransactionsReadMany`: mandatory `start_time`, optional
`end_time` and `currency`, the times rendered with the shared
`timeFormat`. -/
def readManyQuery (startTime : GoTime) (endTime : Option GoTime)
    (currency : Option String) : List (String × String) :=
  [("start_time", formatRFC3339 startTime)] ++
  (match endTime with
   | some t => [("end_time", formatRFC3339 t)]
   | none => []) ++
  (match currency with
   | some s => [("currency", s)]
   | none => [])

/-- Go `TransactionsReadMany`: GET `/transactions`, authorized. -/
def TransactionsReadMany (c : Client) (startTime : GoTime)
    (endTime : Option GoTime) (currency : Option String) (tr : Transport) :
    Client × SendResult (List Transaction) :=
  (c, sendRequest c "GET" "/transactions" (readManyQuery startTime endTime currency)
    none true decodeTransactionList tr)

/-- Body map of `TransactionsUpdate` in the current revision: each
`new_*` field inserted only when supplied; `new_timestamp` is rendered with
the shared `timeFormat`. -/
def transactionsUpdateBody (newAmount : Option Int) (newCurrency : Option String)
    (newDescription : Option String) (newTimestamp : Option GoTime) :
    List (String × GoValue) :=
  (match newAmount with
   | some a => [("new_amount", GoValue.int a)]
   | none => []) ++
  (match newCurrency with
   | some s => [("new_currency", GoValue.str s)]
   | none => []) ++
  (match newDescription with
   | some s => [("new_description", GoValue.str s)]
   | none => []) ++
  (match newTimestamp with
   | some t => [("new_timestamp", GoValue.str (formatRFC3339 t))]
   | none => [])

/-- Go `TransactionsUpdate` of the current revision: PUT
`/transactions/<uuid>`, authorized, optional-field body map. -/
def TransactionsUpdate (c : Client) (uuid : String) (newAmount : Option Int)
    (newCurrency : Option String) (newDescription : Option String)
    (newTimestamp : Option GoTime) (tr : Transport) :
    Client × SendResult Transaction :=
  (c, sendRequest c "PUT" ("/transactions/" ++ uuid) []
    (some (transactionsUpdateBody newAmount newCurrency newDescription newTimestamp))
    true decodeTransaction tr)

/-- Go `TransactionsDelete`: DELETE `/transactions/<uuid>`, authorized. -/
def TransactionsDelete (c : Client) (uuid : String) (tr : Transport) :
    Client × SendResult Transaction :=
  (c, sendRequest c "DELETE" ("/transactions/" ++ uuid) [] none
    true decodeTransaction tr)

/-- Query map of `TransactionsReadSummary`: mandatory `currency` and
`start_time`, optional `end_time`. -/
def readSummaryQuery (currency : String) (startTime : GoTime)
    (endTime : Option GoTime) : List (String × String) :=
  [("currency", currency), ("start_time", formatRFC3339 startTime)] ++
  (match endTime with
   | some t => [("end_time", formatRFC3339 t)]
   | none => [])

/-- Go `TransactionsReadSummary`: GET `/transactions/summary`, authorized. -/
def TransactionsReadSummary (c : Client) (currency : String) (startTime : GoTime)
    (endTime : Option GoTime) (tr : Transport) :
    Client × SendResult TransactionsSummary :=
  (c, sendRequest c "GET" "/transactions/summary"
    (readSummaryQuery currency startTime endTime) none true decodeSummary tr)

/-- Go `CurrenciesRead`: GET `/currencies`, unauthenticated, nil body. -/
def CurrenciesRead (c : Client) (tr : Transport) : Client × SendResult (List Currency) :=
  (c, sendRequest c "GET" "/currencies" [] none false decodeCurrencyList tr)

/-- The string rendering of `GroshiAPIError.Error()` in the current
revision, written with the Go helper it calls. -/
structure GroshiAPIError where
  httpStatusCode : Nat
  errorMessage : String
  errorDetails : List String
deriving DecidableEq, Repr

/-- Go `strings.Join`: elements joined with the separator between
consecutive elements. -/
def stringsJoin (elems : List String) (sep : String) : String :=
  match elems with
  | [] => ""
  | [s] => s
  | s :: rest => s ++ sep ++ stringsJoin rest sep

/-- Go `GroshiAPIError.Error()`: the message alone when the detail list is
empty, otherwise `"<message> (<details joined by comma-space>)"`. -/
def GroshiAPIError.errorString (e : GroshiAPIError) : String :=
  if e.errorDetails.length = 0 then e.errorMessage
  else e.errorMessage ++ " (" ++ stringsJoin e.errorDetails ", " ++ ")"

end GoGroshi

namespace GoGroshi.Rev0

/-- The client struct of the historical revision: base URL and JWT. -/
structure Client where
  baseURL : String
  jwt : String
deriving DecidableEq, Repr

/-- Go `NewGroshiAPIClient` of the historical revision. -/
def NewGroshiAPIClient (baseURL jwt : String) : Client :=
  { baseURL := trimRightSlashes baseURL, jwt := jwt }

/-- Request construction of the historical `sendRequest`, identical to the
current revision's except that the bearer token is the `jwt` field. -/
def buildRequest (g : Client) (method path : String)
    (queryParams : List (String × String))
    (bodyParams : Option (List (String × GoValue))) (authorize : Bool) :
    Option HTTPRequest :=
  GoGroshi.buildRequest ⟨g.baseURL, g.jwt⟩ method path queryParams bodyParams authorize

/-- Outcome of the historical `sendRequest`: a runtime panic (missing
token, or a failed type assertion while unpacking the error object), a
plain Go error, the historical `GroshiAPIError` (description and details,
no status code), or the raw JSON response. -/
inductive SendResult where
  | panicked (msg : String) : SendResult
  | goErr (msg : String) : SendResult
  | apiErr (description : String) (errorDetails : List String) : SendResult
  | ok (response : J) : SendResult

/-- The panic message of the historical `sendRequest`. -/
def panicMessage : String := "`authorize` is true, but `g.jwt` is an empty string"

/-- Type assertion of every element of `error_details` to `string`
(`detail.(string)`); a non-string element is a runtime panic, modelled by
`none`. -/
def assertStrings : List J → Option (List String)
  | [] => some []
  | .str s :: rest => (assertStrings rest).map fun l => s :: l
  | _ :: _ => none

/-- Unpacking of a non-200 response body in the historical revision:
`Map()` fails with a plain error unless the body is a JSON object, then
`error_description` and `error_details` are read with unchecked type
assertions that panic when absent or of the wrong type. -/
def unpackError (j : J) : SendResult :=
  match j with
  | .obj fields =>
    (match lookupLast fields "error_description" with
     | some (.str desc) =>
       (match lookupLast fields "error_details" with
        | some (.arr xs) =>
          (match assertStrings xs with
           | some det => .apiErr desc det
           | none => .panicked "interface conversion")
        | _ => .panicked "interface conversion")
     | _ => .panicked "interface conversion")
  | _ => .goErr "impossible to represent the API response as map"

/-- The historical dispatcher `sendRequest`: panic on a missing token,
request construction and transport as in the current revision, then the
whole body is decoded as dynamic JSON before the status split; a 200
response returns the raw JSON, any other status is unpacked as the dynamic
error object. -/
def sendRequest (g : Client) (method path : String)
    (queryParams : List (String × String))
    (bodyParams : Option (List (String × GoValue))) (authorize : Bool)
    (tr : Transport) : SendResult :=
  if authorize ∧ g.jwt = "" then .panicked panicMessage
  else
    match buildRequest g method path queryParams bodyParams authorize with
    | none => .goErr urlErrorMessage
    | some req =>
      match tr req with
      | .err m => .goErr m
      | .resp status body =>
        match body with
        | none => .goErr "invalid JSON in response body"
        | some j => if status = 200 then .ok j else unpackError j

/-- Body map the historical `TransactionsUpdate` populates: each `new_*`
field inserted when supplied (`new_currency` is stored as the pointer,
which `encoding/json` would serialize as the pointed-to string;
`new_date` is rendered with the shared `timeFormat`). -/
def transactionsUpdateBody (newAmount : Option Int) (newCurrency : Option String)
    (newDescription : Option String) (newDate : Option GoTime) :
    List (String × GoValue) :=
  (match newAmount with
   | some a => [("new_amount", GoValue.int a)]
   | none => []) ++
  (match newCurrency with
   | some s => [("new_currency", GoValue.str s)]
   | none => []) ++
  (match newDescription with
   | some s => [("new_description", GoValue.str s)]
   | none => []) ++
  (match newDate with
   | some t => [("new_date", GoValue.str (formatRFC3339 t))]
   | none => [])

/-- Go `TransactionsUpdate` of the historical revision: it populates
`bodyParams` and then calls `sendRequest` with a nil body map, exactly as
the source does (the populated map is discarded). -/
def TransactionsUpdate (g : Client) (uuid : String) (newAmount : Option Int)
    (newCurrency : Option String) (newDescription : Option String)
    (newDate : Option GoTime) (tr : Transport) : SendResult :=
  let _bodyParams := transactionsUpdateBody newAmount newCurrency newDescription newDate
  sendRequest g "PUT" ("/transactions/" ++ uuid) [] none true tr

end GoGroshi.Rev0


namespace GoGroshi

theorem sendRequest_empty_token {α : Type} (c : Client) (method path : String)
    (q : List (String × String)) (b : Option (List (String × GoValue)))
    (dec : J → Option α) (tr : Transport) (h : c.token = "") :
    sendRequest c method path q b true dec tr = SendResult.panicked panicMessage := by
  simp [sendRequest, h]

theorem rev0_sendRequest_empty_token (g : Rev0.Client) (method path : String)
    (q : List (String × String)) (b : Option (List (String × GoValue)))
    (tr : Transport) (h : g.jwt = "") :
    Rev0.sendRequest g method path q b true tr =
      Rev0.SendResult.panicked Rev0.panicMessage := by
  simp [Rev0.sendRequest, h]

theorem Auth_eq (c : Client) (u p : String) (tr : Transport) :
    Auth c u p tr =
      match (AuthLogin c u p tr).2 with
      | .ok auth => (SetToken c auth.token, .ok ())
      | .panicked m => (c, .panicked m)
      | .transportErr m => (c, .transportErr m)
      | .decodeErr => (c, .decodeErr)
      | .apiErr s m d => (c, .apiErr s m d) := rfl

/-- C1: every endpoint method that requires authorization, called while the
token is the empty string, returns the contract-violation panic before any
request is built: the outcome is the same for every transport oracle, and
the panic outcome is distinct from server-reported API errors and from
transport errors.  The historical revision's dispatcher behaves the same
way. -/
theorem c1_empty_token_fails_fast :
    ∀ (c : Client) (tr : Transport), c.token = "" →
    (∀ (method path : String) (q : List (String × String))
        (b : Option (List (String × GoValue))) (dec : J → Option Unit)
        (tr2 : Transport),
      sendRequest c method path q b true dec tr = SendResult.panicked panicMessage ∧
      sendRequest c method path q b true dec tr2 =
        sendRequest c method path q b true dec tr) ∧
    (AuthRefresh c tr).2 = SendResult.panicked panicMessage ∧
    (UserRead c tr).2 = SendResult.panicked panicMessage ∧
    (∀ nu np, (UserUpdate c nu np tr).2 = SendResult.panicked panicMessage) ∧
    (UserDelete c tr).2 = SendResult.panicked panicMessage ∧
    (∀ a cu d ts, (TransactionsCreate c a cu d ts tr).2 =
      SendResult.panicked panicMessage) ∧
    (∀ u cu, (TransactionsReadOne c u cu tr).2 = SendResult.panicked panicMessage) ∧
    (∀ s e cu, (TransactionsReadMany c s e cu tr).2 =
      SendResult.panicked panicMessage) ∧
    (∀ u na nc nd nt, (TransactionsUpdate c u na nc nd nt tr).2 =
      SendResult.panicked panicMessage) ∧
    (∀ u, (TransactionsDelete c u tr).2 = SendResult.panicked panicMessage) ∧
    (∀ cu s e, (TransactionsReadSummary c cu s e tr).2 =
      SendResult.panicked panicMessage) ∧
    (∀ (g : Rev0.Client) (method path : String) (q : List (String × String))
        (b : Option (List (String × GoValue))) (tr0 : Transport), g.jwt = "" →
      Rev0.sendRequest g method path q b true tr0 =
        Rev0.SendResult.panicked Rev0.panicMessage) ∧
    (∀ (α : Type) (m : String) (s : Nat) (em : String) (d : List String),
      SendResult.panicked (α := α) m ≠ SendResult.apiErr s em d) ∧
    (∀ (m em : String), SendResult.panicked (α := Unit) m ≠
      SendResult.transportErr em) := by
  intro c tr h
  refine ⟨?_, ?_, ?_, ?_, ?_, ?_, ?_, ?_, ?_, ?_, ?_, ?_, ?_, ?_⟩
  · intro m p q b dec tr2
    constructor
    · exact sendRequest_empty_token c m p q b dec tr h
    · rw [sendRequest_empty_token c m p q b dec tr h,
        sendRequest_empty_token c m p q b dec tr2 h]
  · exact sendRequest_empty_token c _ _ _ _ _ _ h
  · exact sendRequest_empty_token c _ _ _ _ _ _ h
  · exact fun nu np => sendRequest_empty_token c _ _ _ _ _ _ h
  · exact sendRequest_empty_token c _ _ _ _ _ _ h
  · exact fun a cu d ts => sendRequest_empty_token c _ _ _ _ _ _ h
  · exact fun u cu => sendRequest_empty_token c _ _ _ _ _ _ h
  · exact fun s e cu => sendRequest_empty_token c _ _ _ _ _ _ h
  · exact fun u na nc nd nt => sendRequest_empty_token c _ _ _ _ _ _ h
  · exact fun u => sendRequest_empty_token c _ _ _ _ _ _ h
  · exact fun cu s e => sendRequest_empty_token c _ _ _ _ _ _ h
  · exact fun g m p q b tr0 hg => rev0_sendRequest_empty_token g m p q b tr0 hg
  · intro α m s em d hne
    exact SendResult.noConfusion hne
  · intro m em hne
    exact SendResult.noConfusion hne

/-- Witness for C1 at a concrete client with an empty token. -/
theorem c1_empty_token_fails_fast_witness :
    (UserRead ⟨"http://localhost:8080", ""⟩
      (fun _ => TransportResult.err "dial tcp: connection refused")).2 =
      SendResult.panicked panicMessage :=
  (c1_empty_token_fails_fast ⟨"http://localhost:8080", ""⟩
    (fun _ => TransportResult.err "dial tcp: connection refused") rfl).2.2.1

/-- C10: no endpoint method other than `SetToken` and `Auth` changes the
client's fields; `SetToken` replaces only the token, and `Auth` either
leaves the client unchanged or replaces only the token with the one
returned by the login call — the base URL is never modified after
construction. -/
theorem c10_client_state_frame :
    ∀ (c : Client) (tr : Transport),
    (∀ u p, (AuthLogin c u p tr).1 = c) ∧
    (AuthRefresh c tr).1 = c ∧
    (∀ u p, (UserCreate c u p tr).1 = c) ∧
    (UserRead c tr).1 = c ∧
    (∀ nu np, (UserUpdate c nu np tr).1 = c) ∧
    (UserDelete c tr).1 = c ∧
    (∀ a cu d ts, (TransactionsCreate c a cu d ts tr).1 = c) ∧
    (∀ u cu, (TransactionsReadOne c u cu tr).1 = c) ∧
    (∀ s e cu, (TransactionsReadMany c s e cu tr).1 = c) ∧
    (∀ u na nc nd nt, (TransactionsUpdate c u na nc nd nt tr).1 = c) ∧
    (∀ u, (TransactionsDelete c u tr).1 = c) ∧
    (∀ cu s e, (TransactionsReadSummary c cu s e tr).1 = c) ∧
    (CurrenciesRead c tr).1 = c ∧
    (∀ tok, SetToken c tok = { baseURL := c.baseURL, token := tok }) ∧
    (∀ u p, (Auth c u p tr).1.baseURL = c.baseURL ∧
      ((Auth c u p tr).1 = c ∨
        ∃ auth, (AuthLogin c u p tr).2 = SendResult.ok auth ∧
          (Auth c u p tr).1 = { c with token := auth.token })) := by
  intro c tr
  refine ⟨fun u p => rfl, rfl, fun u p => rfl, rfl, fun nu np => rfl, rfl,
    fun a cu d ts => rfl, fun u cu => rfl, fun s e cu => rfl,
    fun u na nc nd nt => rfl, fun u => rfl, fun cu s e => rfl, rfl,
    fun tok => rfl, fun u p => ?_⟩
  rw [Auth_eq]
  cases hlog : (AuthLogin c u p tr).2 with
  | panicked m => exact ⟨rfl, Or.inl rfl⟩
  | transportErr m => exact ⟨rfl, Or.inl rfl⟩
  | decodeErr => exact ⟨rfl, Or.inl rfl⟩
  | apiErr s m d => exact ⟨rfl, Or.inl rfl⟩
  | ok auth => exact ⟨rfl, Or.inr ⟨auth, rfl, rfl⟩⟩

end GoGroshi

namespace GoGroshi

/-- C2, counterexample: a request built by the dispatcher from a nil body
map (here: the refresh endpoint's request) has serialized body `null`, not
the empty JSON object. -/
theorem c2_nil_body_counterexample :
    (buildRequest (NewGroshiAPIClient "http://example.com" "token-1") "POST"
        "/auth/refresh" [] none true).map HTTPRequest.body = some "null" ∧
    ("null" : String) ≠ "\x7b\x7d" := by
  exact ⟨rfl, by decide⟩

/-- C2, amended: for every request built by the dispatcher, a nil body map
serializes to the JSON literal `null`, and a supplied map (including the
empty one, which yields `\x7b\x7d`) serializes as the JSON object with the
map's sorted, JSON-escaped entries. -/
theorem c2_body_serialization :
    ∀ (c : Client) (method path : String) (q : List (String × String))
      (b : Option (List (String × GoValue))) (authorize : Bool) (req : HTTPRequest),
    buildRequest c method path q b authorize = some req →
      req.body = marshalBody b ∧
      (b = none → req.body = "null") ∧
      (∀ m, b = some m → req.body =
        "\x7b" ++ String.intercalate ","
          ((sortPairs m).map fun kv => jsonQuote kv.1 ++ ":" ++ marshalValue kv.2)
          ++ "\x7d") := by
  intro c method path q b authorize req h
  simp only [buildRequest] at h
  split at h
  · exact absurd h (by simp)
  · cases h
    refine ⟨rfl, fun hb => ?_, fun m hb => ?_⟩
    · rw [hb]
      rfl
    · rw [hb]
      rfl

/-- Witness for C2's amended claim: the empty non-nil map of a
`UserUpdate` call with no optional fields serializes to `\x7b\x7d`. -/
theorem c2_body_serialization_witness :
    marshalBody (some ([] : List (String × GoValue))) = "\x7b\x7d" ∧
    (buildRequest (NewGroshiAPIClient "http://example.com" "tkn") "PUT" "/user"
        [] (some []) true).map HTTPRequest.body = some "\x7b\x7d" := by
  have h := c2_body_serialization (NewGroshiAPIClient "http://example.com" "tkn")
    "PUT" "/user" [] (some []) true
    { method := "PUT", url := "http://example.com/user",
      body := marshalBody (some []), contentType := "application/json",
      authorization := some ("Bearer " ++ "tkn") } rfl
  exact ⟨h.2.2 [] rfl, rfl⟩

/-- C5: optional parameters left unset produce no key at all in the query
or body map (and hence none in the serialized query string), while set
parameters produce exactly their key with the given value: shown for
`TransactionsReadMany`'s optional end time and currency,
`TransactionsReadOne`'s optional currency, and `UserUpdate`'s optional new
username and password. -/
theorem c5_optional_params_omitted :
    ∀ (start e : GoTime) (cur nu np : String),
    (readManyQuery start none none).map Prod.fst = ["start_time"] ∧
    encodeQuery (readManyQuery start none none) =
      "start_time=" ++ queryEscape (formatRFC3339 start) ∧
    (readManyQuery start (some e) (some cur)).map Prod.fst =
      ["start_time", "end_time", "currency"] ∧
    lookupKey (readManyQuery start (some e) (some cur)) "end_time" =
      some (formatRFC3339 e) ∧
    lookupKey (readManyQuery start (some e) (some cur)) "currency" = some cur ∧
    readOneQuery none = [] ∧
    readOneQuery (some cur) = [("currency", cur)] ∧
    (userUpdateBody none none).map Prod.fst = [] ∧
    (userUpdateBody (some nu) none).map Prod.fst = ["new_username"] ∧
    (userUpdateBody none (some np)).map Prod.fst = ["new_password"] ∧
    (userUpdateBody (some nu) (some np)).map Prod.fst =
      ["new_username", "new_password"] ∧
    lookupKey (userUpdateBody (some nu) (some np)) "new_username" =
      some (GoValue.str nu) ∧
    lookupKey (userUpdateBody (some nu) (some np)) "new_password" =
      some (GoValue.str np) := by
  intro start e cur nu np
  refine ⟨rfl, ?_, rfl, ?_, ?_, rfl, rfl, rfl, rfl, rfl, rfl, ?_, ?_⟩
  · rfl
  · simp [readManyQuery, lookupKey]
  · simp [readManyQuery, lookupKey]
  · simp [userUpdateBody, lookupKey]
  · simp [userUpdateBody, lookupKey]

/-- C6: the historical `TransactionsUpdate` discards the body map it
populates — the dispatched call is the one with a nil body map, the result
is independent of all four partial-update arguments, and the body of the
request it builds is the `null` serialization containing no fields. -/
theorem c6_historical_update_ignores_body :
    ∀ (g : Rev0.Client) (uuid : String) (na : Option Int) (nc nd : Option String)
      (ndate : Option GoTime) (tr : Transport),
    Rev0.TransactionsUpdate g uuid na nc nd ndate tr =
      Rev0.sendRequest g "PUT" ("/transactions/" ++ uuid) [] none true tr ∧
    (∀ na2 nc2 nd2 ndate2,
      Rev0.TransactionsUpdate g uuid na2 nc2 nd2 ndate2 tr =
        Rev0.TransactionsUpdate g uuid na nc nd ndate tr) ∧
    (∀ req, Rev0.buildRequest g "PUT" ("/transactions/" ++ uuid) [] none true =
        some req → req.body = "null") := by
  intro g uuid na nc nd ndate tr
  refine ⟨rfl, fun na2 nc2 nd2 ndate2 => rfl, fun req h => ?_⟩
  have h2 := c2_body_serialization ⟨g.baseURL, g.jwt⟩ "PUT" ("/transactions/" ++ uuid)
    [] none true req h
  exact h2.2.1 rfl

/-- Witness for C6 at a concrete client, transaction id and argument set. -/
theorem c6_historical_update_ignores_body_witness :
    Rev0.TransactionsUpdate ⟨"http://x", "jwt-1"⟩ "id-7" (some 42) (some "USD")
      (some "groceries") none (fun _ => TransportResult.err "e") =
      Rev0.sendRequest ⟨"http://x", "jwt-1"⟩ "PUT" ("/transactions/" ++ "id-7")
        [] none true (fun _ => TransportResult.err "e") ∧
    (Rev0.buildRequest ⟨"http://x", "jwt-1"⟩ "PUT" ("/transactions/" ++ "id-7")
        [] none true).map HTTPRequest.body = some "null" := by
  have h := c6_historical_update_ignores_body ⟨"http://x", "jwt-1"⟩ "id-7"
    (some 42) (some "USD") (some "groceries") none (fun _ => TransportResult.err "e")
  exact ⟨h.1, rfl⟩

end GoGroshi

namespace GoGroshi

theorem intercalate_go_eq (sep : String) :
    ∀ (as : List String) (acc : String),
      String.intercalate.go acc sep as =
        match as with
        | [] => acc
        | _ :: _ => acc ++ sep ++ stringsJoin as sep := by
  intro as
  induction as with
  | nil => intro acc; rfl
  | cons a rest ih =>
    intro acc
    show String.intercalate.go (acc ++ sep ++ a) sep rest = _
    rw [ih (acc ++ sep ++ a)]
    cases rest with
    | nil => rfl
    | cons b r =>
      show acc ++ sep ++ a ++ sep ++ stringsJoin (b :: r) sep =
        acc ++ sep ++ (a ++ sep ++ stringsJoin (b :: r) sep)
      simp only [String.append_assoc]

theorem stringsJoin_eq_intercalate (l : List String) (sep : String) :
    stringsJoin l sep = String.intercalate sep l := by
  cases l with
  | nil => rfl
  | cons a as =>
    show stringsJoin (a :: as) sep = String.intercalate.go a sep as
    rw [intercalate_go_eq sep as a]
    cases as with
    | nil => rfl
    | cons b r => rfl

/-- C4: the string rendering of a `GroshiAPIError` is the message alone
when the detail list is empty, and the message followed by the
comma-separated details in parentheses when it is non-empty. -/
theorem c4_error_rendering :
    ∀ (status : Nat) (msg : String) (details : List String),
    (details = [] →
      GroshiAPIError.errorString ⟨status, msg, details⟩ = msg) ∧
    (details ≠ [] →
      GroshiAPIError.errorString ⟨status, msg, details⟩ =
        msg ++ " (" ++ String.intercalate ", " details ++ ")") := by
  intro status msg details
  constructor
  · intro h
    subst h
    rfl
  · intro h
    rw [← stringsJoin_eq_intercalate]
    unfold GroshiAPIError.errorString
    rw [if_neg]
    simpa [List.length_eq_zero] using h

/-- Witness for C4 at the spec's example inputs, both branches. -/
theorem c4_error_rendering_witness :
    GroshiAPIError.errorString ⟨400, "error_message",
      ["password too short", "username taken"]⟩ =
      "error_message (password too short, username taken)" ∧
    GroshiAPIError.errorString ⟨401, "invalid credentials", []⟩ =
      "invalid credentials" := by
  constructor
  · rw [(c4_error_rendering 400 "error_message"
      ["password too short", "username taken"]).2 (by decide)]
    rfl
  · exact (c4_error_rendering 401 "invalid credentials" []).1 rfl

/-- C3: for every non-200 status the dispatcher's response interpretation
decodes the body as the `{error_message, error_details}` struct and yields
a `GroshiAPIError` carrying the original status code, message and
(possibly empty) detail list, uniformly in the status; a body that fails
to decode is the distinct decode error; and the dispatcher routes every
transport result through this interpretation. -/
theorem c3_uniform_error_interpretation :
    ∀ (α : Type) (dec : J → Option α) (status : Nat) (body : Option J),
    status ≠ 200 →
    (interpretResponse (TransportResult.resp status body) dec =
      match body with
      | none => SendResult.decodeErr
      | some j =>
        match decodeErrorModel j with
        | none => SendResult.decodeErr
        | some em => SendResult.apiErr status em.errorMessage em.errorDetails) ∧
    (∀ s em d, SendResult.apiErr (α := α) s em d ≠ SendResult.decodeErr) ∧
    (∀ (c : Client) method path q b tr req,
      buildRequest c method path q b false = some req →
      sendRequest c method path q b false dec tr = interpretResponse (tr req) dec) ∧
    (∀ (c : Client) method path q b tr req, c.token ≠ "" →
      buildRequest c method path q b true = some req →
      sendRequest c method path q b true dec tr = interpretResponse (tr req) dec) := by
  intro α dec status body h
  refine ⟨?_, ?_, ?_, ?_⟩
  · cases body with
    | none => rfl
    | some j =>
      show (if status = 200 then _ else _) = _
      rw [if_neg h]
  · intro s em d hne
    exact SendResult.noConfusion hne
  · intro c method path q b tr req hreq
    simp [sendRequest, hreq]
  · intro c method path q b tr req htok hreq
    simp [sendRequest, htok, hreq]

/-- Witness for C3: a 404 response with a well-formed error body yields
the `GroshiAPIError` with status 404, and the same body with a malformed
error field yields the distinct decode error. -/
theorem c3_uniform_error_interpretation_witness :
    interpretResponse (TransportResult.resp 404 (some (J.obj
        [("error_message", J.str "transaction not found"),
         ("error_details", J.arr [J.str "no such uuid"])]))) decodeUser =
      SendResult.apiErr 404 "transaction not found" ["no such uuid"] ∧
    interpretResponse (TransportResult.resp 404 (some (J.obj
        [("error_message", J.num 3)]))) decodeUser = SendResult.decodeErr := by
  constructor
  · rw [(c3_uniform_error_interpretation User decodeUser 404 (some (J.obj
        [("error_message", J.str "transaction not found"),
         ("error_details", J.arr [J.str "no such uuid"])])) (by decide)).1]
    rfl
  · rw [(c3_uniform_error_interpretation User decodeUser 404 (some (J.obj
        [("error_message", J.num 3)])) (by decide)).1]
    rfl

/-- C8: storing a token — through `SetToken` or through a successful
`Auth` login — makes every subsequently built authorized request carry the
header `Authorization: Bearer <token>` for exactly that token, and (for a
non-empty token) the dispatcher proceeds to build and send that request. -/
theorem c8_bearer_header_after_login :
    ∀ (c : Client) (tok method path : String) (q : List (String × String))
      (b : Option (List (String × GoValue))) (req : HTTPRequest),
    (buildRequest (SetToken c tok) method path q b true = some req →
      req.authorization = some ("Bearer " ++ tok)) ∧
    (tok ≠ "" → ∀ (dec : J → Option Authorization) (tr : Transport),
      sendRequest (SetToken c tok) method path q b true dec tr =
        match buildRequest (SetToken c tok) method path q b true with
        | none => SendResult.transportErr urlErrorMessage
        | some req2 => interpretResponse (tr req2) dec) ∧
    (∀ username password tr auth,
      (AuthLogin c username password tr).2 = SendResult.ok auth →
        (Auth c username password tr).1.token = auth.token ∧
        (buildRequest (Auth c username password tr).1 method path q b true =
            some req →
          req.authorization = some ("Bearer " ++ auth.token))) := by
  intro c tok method path q b req
  refine ⟨?_, ?_, ?_⟩
  · intro h
    simp only [buildRequest] at h
    split at h
    · exact absurd h (by simp)
    · cases h
      rfl
  · intro htok dec tr
    simp [sendRequest, SetToken, htok]
  · intro username password tr auth hlog
    rw [Auth_eq, hlog]
    refine ⟨rfl, fun h => ?_⟩
    simp only [buildRequest] at h
    split at h
    · exact absurd h (by simp)
    · cases h
      rfl

/-- Witness for C8: a login whose response carries token `jwt-abc`,
followed by building an authorized `GET /user` request, yields the header
`Bearer jwt-abc`. -/
theorem c8_bearer_header_after_login_witness :
    (Auth ⟨"http://x", ""⟩ "user1" "pass1"
        (fun _ => TransportResult.resp 200
          (some (J.obj [("token", J.str "jwt-abc")])))).1.token = "jwt-abc" ∧
    (buildRequest (Auth ⟨"http://x", ""⟩ "user1" "pass1"
        (fun _ => TransportResult.resp 200
          (some (J.obj [("token", J.str "jwt-abc")])))).1
        "GET" "/user" [] none true).map HTTPRequest.authorization =
      some (some ("Bearer " ++ "jwt-abc")) := by
  have h := (c8_bearer_header_after_login ⟨"http://x", ""⟩ "jwt-abc" "GET" "/user"
    [] none
    { method := "GET", url := "http://x/user", body := marshalBody none,
      contentType := "application/json",
      authorization := some ("Bearer " ++ "jwt-abc") }).2.2 "user1" "pass1"
    (fun _ => TransportResult.resp 200 (some (J.obj [("token", J.str "jwt-abc")])))
    ⟨"jwt-abc", zeroTime⟩ rfl
  refine ⟨h.1, ?_⟩
  have hb : buildRequest (Auth ⟨"http://x", ""⟩ "user1" "pass1"
      (fun _ => TransportResult.resp 200
        (some (J.obj [("token", J.str "jwt-abc")])))).1 "GET" "/user" [] none true =
      some { method := "GET", url := "http://x/user", body := marshalBody none,
             contentType := "application/json",
             authorization := some ("Bearer " ++ "jwt-abc") } := rfl
  rw [hb]
  exact congrArg some (h.2 rfl)

end GoGroshi

namespace GoGroshi

theorem daysIn_le (y m : Nat) : daysIn y m ≤ 31 := by
  unfold daysIn
  split
  · split <;> omega
  · split <;> omega

theorem readDigit_digitChar (d : Nat) (h : d < 10) :
    readDigit (digitChar d) = some d := by
  interval_cases d <;> decide

theorem read2_pad2 (n : Nat) (h : n < 100) :
    ∀ rest : List Char, read2 (pad2 n ++ rest) = some (n, rest) := by
  intro rest
  have h1 : n / 10 < 10 := by omega
  have h2 : n % 10 < 10 := by omega
  simp [pad2, read2, readDigit_digitChar _ h1, readDigit_digitChar _ h2]
  omega

theorem read2_pad2_nil (n : Nat) (h : n < 100) :
    read2 (pad2 n) = some (n, []) := by
  have h1 : n / 10 < 10 := by omega
  have h2 : n % 10 < 10 := by omega
  simp [pad2, read2, readDigit_digitChar _ h1, readDigit_digitChar _ h2]
  omega

theorem read4_pad4 (n : Nat) (h : n < 10000) :
    ∀ rest : List Char, read4 (pad4 n ++ rest) = some (n, rest) := by
  intro rest
  have h1 : n / 100 < 100 := by omega
  have h2 : n % 100 < 100 := by omega
  simp [pad4, read4, List.append_assoc, read2_pad2 _ h1, read2_pad2 _ h2]
  omega

theorem expect_cons (c : Char) (rest : List Char) :
    expect c (c :: rest) = some rest := by
  simp [expect]

theorem readDate_format (y mo d : Nat) (hy : y < 10000) (hmo : mo < 100)
    (hd : d < 100) (rest : List Char) :
    readDate (pad4 y ++ '-' :: (pad2 mo ++ '-' :: (pad2 d ++ rest))) =
      some ((y, mo, d), rest) := by
  simp [readDate, read4_pad4 _ hy, expect_cons, read2_pad2 _ hmo, read2_pad2 _ hd]

theorem readClock_format (a b c : Nat) (ha : a < 100) (hb : b < 100)
    (hc : c < 100) (rest : List Char) :
    readClock (pad2 a ++ ':' :: (pad2 b ++ ':' :: (pad2 c ++ rest))) =
      some ((a, b, c), rest) := by
  simp [readClock, read2_pad2 _ ha, expect_cons, read2_pad2 _ hb, read2_pad2 _ hc]

theorem readFracOpt_offsetChars (off : Int) :
    readFracOpt (offsetChars off) = some (0, offsetChars off) := by
  unfold offsetChars
  split
  · simp only [readFracOpt]
    rw [if_neg (by decide)]
  · split
    · simp only [readFracOpt]
      rw [if_neg (by decide)]
    · simp only [readFracOpt]
      rw [if_neg (by decide)]

theorem readOffset_offsetChars (off : Int) (h1 : -1439 ≤ off) (h2 : off ≤ 1439) :
    readOffset (offsetChars off) = some (off, []) := by
  unfold offsetChars
  by_cases h0 : off = 0
  · rw [if_pos h0]
    subst h0
    rfl
  · rw [if_neg h0]
    by_cases hp : 0 < off
    · rw [if_pos hp]
      have ha : off.toNat / 60 < 100 := by omega
      have hb : off.toNat % 60 < 100 := by omega
      simp only [readOffset]
      rw [if_neg (by decide : ¬('+' = 'Z'))]
      rw [if_pos (Or.inl trivial : True ∨ '+' = '-')]
      rw [read2_pad2 _ ha]
      simp only [Option.some_bind]
      rw [expect_cons]
      simp only [Option.some_bind]
      rw [read2_pad2_nil _ hb]
      simp only [Option.some_bind]
      rw [if_pos ⟨by omega, by omega⟩]
      rw [if_pos trivial]
      simp only [Option.some.injEq, Prod.mk.injEq]
      refine ⟨?_, trivial⟩
      omega
    · rw [if_neg hp]
      have ha : (-off).toNat / 60 < 100 := by omega
      have hb : (-off).toNat % 60 < 100 := by omega
      simp only [readOffset]
      rw [if_neg (by decide : ¬('-' = 'Z'))]
      rw [if_pos (Or.inr trivial : '-' = '+' ∨ True)]
      rw [read2_pad2 _ ha]
      simp only [Option.some_bind]
      rw [expect_cons]
      simp only [Option.some_bind]
      rw [read2_pad2_nil _ hb]
      simp only [Option.some_bind]
      rw [if_pos ⟨by omega, by omega⟩]
      rw [if_neg (by decide : ¬('-' = '+'))]
      simp only [Option.some.injEq, Prod.mk.injEq]
      refine ⟨?_, trivial⟩
      omega

theorem readTail_offsetChars (off : Int) (h1 : -1439 ≤ off) (h2 : off ≤ 1439) :
    readTail (offsetChars off) = some (0, off) := by
  simp only [readTail, readFracOpt_offsetChars, Option.some_bind]
  rw [readOffset_offsetChars off h1 h2]
  simp only [Option.some_bind]
  rfl

/-- C9: formatting a well-formed timestamp with the client's shared
`timeFormat` (RFC-3339) and parsing the text back yields the same instant
with the sub-second component dropped — the round trip is the identity up
to the format's second-level precision. -/
theorem c9_time_roundtrip (t : GoTime) (h : validTime t) :
    parseRFC3339 (formatRFC3339 t) = some { t with nsec := 0 } := by
  obtain ⟨hy, hmo1, hmo2, hd1, hd2, hh, hmi, hs, hns, ho1, ho2⟩ := h
  show parseChars (formatChars t) = _
  simp only [formatChars, parseChars]
  rw [readDate_format t.year t.month t.day (by omega) (by omega)
    (by have := daysIn_le t.year t.month; omega)]
  simp only [Option.some_bind]
  rw [expect_cons]
  simp only [Option.some_bind]
  rw [readClock_format t.hour t.minute t.second (by omega) (by omega) (by omega)]
  simp only [Option.some_bind]
  rw [readTail_offsetChars t.offMin ho1 ho2]
  simp only [Option.some_bind]
  rw [if_pos ⟨hmo1, hmo2, hd1, hd2, hh, hmi, hs⟩]

/-- Witness for C9 at a concrete timestamp with a sub-second component and
a non-UTC zone offset. -/
theorem c9_time_roundtrip_witness :
    validTime ⟨2023, 6, 15, 12, 30, 45, 123456789, 180⟩ ∧
    parseRFC3339 (formatRFC3339 ⟨2023, 6, 15, 12, 30, 45, 123456789, 180⟩) =
      some ⟨2023, 6, 15, 12, 30, 45, 0, 180⟩ :=
  ⟨by decide, c9_time_roundtrip ⟨2023, 6, 15, 12, 30, 45, 123456789, 180⟩ (by decide)⟩

end GoGroshi

namespace GoGroshi

/-- C7, counterexample: the same timestamp (with a non-zero sub-second
component) is serialized differently across the surface — the
`TransactionsCreate` body stores the raw `time.Time`, whose JSON encoding
keeps the sub-second digits, while the query parameters use the shared
seconds-precision `timeFormat`; so not every serialized timestamp uses one
single fixed textual format. -/
theorem c7_time_format_counterexample :
    lookupKey (transactionsCreateBody 1 "USD" none
        (some ⟨2023, 1, 2, 3, 4, 5, 500000000, 0⟩)) "timestamp" =
      some (GoValue.time ⟨2023, 1, 2, 3, 4, 5, 500000000, 0⟩) ∧
    marshalValue (GoValue.time ⟨2023, 1, 2, 3, 4, 5, 500000000, 0⟩) =
      "\"2023-01-02T03:04:05.5Z\"" ∧
    lookupKey (readManyQuery ⟨2023, 1, 2, 3, 4, 5, 500000000, 0⟩ none none)
        "start_time" = some "2023-01-02T03:04:05Z" ∧
    marshalJSONTime ⟨2023, 1, 2, 3, 4, 5, 500000000, 0⟩ ≠
      formatRFC3339 ⟨2023, 1, 2, 3, 4, 5, 500000000, 0⟩ := by
  exact ⟨rfl, rfl, rfl, by decide⟩

/-- C7, amended: every timestamp serialized through the shared `timeFormat`
— the `start_time`/`end_time` query parameters and the `new_timestamp`
body field — uses the single fixed seconds-precision RFC-3339 format; the
`timestamp` body field of `TransactionsCreate` is instead serialized by
the JSON encoder's RFC-3339 rendering with sub-second digits, which
coincides with the shared format exactly when the timestamp has no
sub-second component. -/
theorem c7_shared_time_format_amended :
    ∀ (t e : GoTime) (amount : Int) (currency cur : String)
      (desc : Option String) (na : Option Int) (nc nd : Option String),
    lookupKey (readManyQuery t none none) "start_time" = some (formatRFC3339 t) ∧
    readManyQuery t (some e) (some cur) =
      [("start_time", formatRFC3339 t), ("end_time", formatRFC3339 e),
       ("currency", cur)] ∧
    readSummaryQuery currency t (some e) =
      [("currency", currency), ("start_time", formatRFC3339 t),
       ("end_time", formatRFC3339 e)] ∧
    lookupKey (transactionsUpdateBody na nc nd (some t)) "new_timestamp" =
      some (GoValue.str (formatRFC3339 t)) ∧
    lookupKey (transactionsCreateBody amount currency desc (some t)) "timestamp" =
      some (GoValue.time t) ∧
    marshalValue (GoValue.time t) = "\"" ++ marshalJSONTime t ++ "\"" ∧
    (t.nsec = 0 → marshalJSONTime t = formatRFC3339 t) := by
  intro t e amount currency cur desc na nc nd
  refine ⟨rfl, rfl, rfl, ?_, ?_, rfl, ?_⟩
  · cases na <;> cases nc <;> cases nd <;> rfl
  · cases desc <;> rfl
  · intro h
    show (⟨marshalJSONTimeChars t⟩ : String) = ⟨formatChars t⟩
    simp [marshalJSONTimeChars, formatChars, fracChars, h]

/-- Witness for C7's amended claim at a whole-second timestamp, where the
two renderings coincide. -/
theorem c7_shared_time_format_amended_witness :
    (⟨2024, 2, 29, 23, 59, 59, 0, 0⟩ : GoTime).nsec = 0 ∧
    marshalJSONTime ⟨2024, 2, 29, 23, 59, 59, 0, 0⟩ =
      formatRFC3339 ⟨2024, 2, 29, 23, 59, 59, 0, 0⟩ ∧
    lookupKey (readManyQuery ⟨2024, 2, 29, 23, 59, 59, 0, 0⟩ none none)
        "start_time" = some (formatRFC3339 ⟨2024, 2, 29, 23, 59, 59, 0, 0⟩) := by
  have h := c7_shared_time_format_amended ⟨2024, 2, 29, 23, 59, 59, 0, 0⟩
    ⟨2024, 1, 1, 0, 0, 0, 0, 0⟩ 0 "USD" "USD" none none none none
  exact ⟨rfl, h.2.2.2.2.2.2 rfl, h.1⟩

end GoGroshi
